import Mathlib

/-!
Shallow embedding of the ACL animation compression codec core
(encoder, track sampling, math helpers and binary layout) together with
proofs checking the natural-language specification against it.

Conventions: C++ floats and doubles are embedded as exact rationals
(or reals where a square root is required); fixed-width machine integers
are embedded as naturals, with wrap-around noted where it could matter.
Definitions are transcribed from the repository sources; parts of the
repository that are only declared there (headers not shipped with the
sources) are modelled from the specification and marked as such.
-/

namespace acl

/-! ### Scalar helpers, from `acl/math/scalar_64.h` -/

/-- Source constant `ACL_PI_64 = 3.141592654` (scalar_64.h line 35),
embedded as the exact decimal value of the literal. -/
def ACL_PI_64 : ℚ := 3.141592654

/-- Source `clamp` (scalar_64.h lines 42-45): `min(max(input, min), max)`. -/
def clamp (input mn mx : ℚ) : ℚ := min (max input mn) mx

/-- Source `deg2rad` (scalar_64.h lines 89-92): `(deg / 360.0) * ACL_PI_64`. -/
def deg2rad (deg : ℚ) : ℚ := (deg / 360) * ACL_PI_64

/-! ### Quaternion math, from `acl/math/quat_32.h`

Floats are embedded as reals because `quat_length` takes a square root. -/

structure Quat_32 where
  x : ℝ
  y : ℝ
  z : ℝ
  w : ℝ

/-- Source `quat_set` (quat_32.h lines 32-39). -/
def quat_set (x y z w : ℝ) : Quat_32 := ⟨x, y, z, w⟩

/-- Source `quat_get_x` (quat_32.h lines 41-48). -/
def quat_get_x (input : Quat_32) : ℝ := input.x

/-- Source `quat_get_y` (quat_32.h lines 50-57). -/
def quat_get_y (input : Quat_32) : ℝ := input.y

/-- Source `quat_get_z` (quat_32.h lines 59-66). -/
def quat_get_z (input : Quat_32) : ℝ := input.z

/-- Source `quat_get_w` (quat_32.h lines 68-75). -/
def quat_get_w (input : Quat_32) : ℝ := input.w

/-- Source `quat_length_squared` (quat_32.h lines 77-81), transcribed
verbatim: `(x * x) + (y + y) + (z + z) + (w + w)`.  Note that only the
x component is squared; the remaining terms are sums. -/
def quat_length_squared (input : Quat_32) : ℝ :=
  (quat_get_x input * quat_get_x input) + (quat_get_y input + quat_get_y input)
    + (quat_get_z input + quat_get_z input) + (quat_get_w input + quat_get_w input)

/-- Source `quat_length` (quat_32.h lines 83-87): `sqrt(quat_length_squared(input))`. -/
noncomputable def quat_length (input : Quat_32) : ℝ :=
  Real.sqrt (quat_length_squared input)

/-- Source `quat_length_reciprocal` (quat_32.h lines 89-93):
`1.0f / sqrt(quat_length_squared(input))`. -/
noncomputable def quat_length_reciprocal (input : Quat_32) : ℝ :=
  1 / Real.sqrt (quat_length_squared input)

/-- Source `quat_normalize` (quat_32.h lines 95-100): multiplies every
component by `quat_length_reciprocal`. -/
noncomputable def quat_normalize (input : Quat_32) : Quat_32 :=
  quat_set (quat_get_x input * quat_length_reciprocal input)
    (quat_get_y input * quat_length_reciprocal input)
    (quat_get_z input * quat_length_reciprocal input)
    (quat_get_w input * quat_length_reciprocal input)

/-- The mathematical squared length `x² + y² + z² + w²` of a quaternion:
the meaning of the spec's norm `‖q‖` (data-model invariant `‖q‖≈1`). -/
def quat_true_length_squared (q : Quat_32) : ℝ :=
  q.x * q.x + q.y * q.y + q.z * q.z + q.w * q.w

/-! ### Rational quaternions and vectors

The compression pipeline and the raw tracks store samples as plain scalar
tuples (doubles in `animation_track.h`, floats in the streams); they are
embedded as exact rationals. -/

structure Quat4 where
  x : ℚ
  y : ℚ
  z : ℚ
  w : ℚ
deriving DecidableEq, Repr, Inhabited

structure Vec3 where
  x : ℚ
  y : ℚ
  z : ℚ
deriving DecidableEq, Repr, Inhabited

/-- Quaternion dot product, the measure the spec uses for rotation
tolerances (§4.3: dot-with-identity compared against `1 - ε`). -/
def quat_dot (a b : Quat4) : ℚ :=
  a.x * b.x + a.y * b.y + a.z * b.z + a.w * b.w

def quat_neg (q : Quat4) : Quat4 := ⟨-q.x, -q.y, -q.z, -q.w⟩

/-- Modelled from the spec: `quat_lerp` lives in `acl/math/quat_64.h`, which is
not among the sources; §4.8 and the track sampler call for plain (component
wise) linear interpolation of the two surrounding samples. -/
def quat_lerp (a b : Quat4) (alpha : ℚ) : Quat4 :=
  ⟨a.x + (b.x - a.x) * alpha, a.y + (b.y - a.y) * alpha,
   a.z + (b.z - a.z) * alpha, a.w + (b.w - a.w) * alpha⟩

/-- Modelled from the spec: `vector_lerp` lives in `acl/math/vector4_64.h`,
which is not among the sources; component-wise linear interpolation. -/
def vector_lerp (a b : Vec3) (alpha : ℚ) : Vec3 :=
  ⟨a.x + (b.x - a.x) * alpha, a.y + (b.y - a.y) * alpha,
   a.z + (b.z - a.z) * alpha⟩

/-! ### Raw track sampling, from `acl/compression/animation_track.h` -/

/-- Modelled from the spec: `calculate_interpolation_keys` lives in
`acl/core/utils.h`, which is not among the sources.  Per §4.8 steps 2-3 it
clamps the sample time to `[0, duration]`, recovers the sample rate from the
duration passed in by the track sampler, and yields
`(frame0, frame1, alpha)` with `frame0 = floor(t·rate)`,
`frame1 = min(frame0 + 1, num_samples - 1)` and `alpha = t·rate - frame0`. -/
def calculate_interpolation_keys (num_samples : ℕ) (duration : ℚ) (sample_time : ℚ) :
    ℕ × ℕ × ℚ :=
  let t := clamp sample_time 0 duration
  let sample_rate : ℚ := if duration = 0 then 0 else ((num_samples : ℚ) - 1) / duration
  let track_pos := t * sample_rate
  let sample_frame0 : ℕ := (⌊track_pos⌋).toNat
  let sample_frame1 : ℕ := min (sample_frame0 + 1) (num_samples - 1)
  (sample_frame0, sample_frame1, track_pos - (sample_frame0 : ℚ))

/-- Source `AnimationRotationTrack` (animation_track.h lines 121-187):
`m_num_samples`, `m_sample_rate` and the per-sample quaternion data. -/
structure AnimationRotationTrack where
  num_samples : ℕ
  sample_rate : ℕ
  samples : List Quat4
deriving DecidableEq, Repr

/-- Source `AnimationTranslationTrack` (animation_track.h lines 189-253). -/
structure AnimationTranslationTrack where
  num_samples : ℕ
  sample_rate : ℕ
  samples : List Vec3
deriving DecidableEq, Repr

/-- Source `AnimationRotationTrack::get_sample` (animation_track.h lines
159-169): loads the quaternion stored at the given sample index. -/
def AnimationRotationTrack.get_sample (track : AnimationRotationTrack) (i : ℕ) : Quat4 :=
  track.samples.getD i ⟨0, 0, 0, 0⟩

/-- Source `AnimationTranslationTrack::get_sample` (animation_track.h lines
225-235). -/
def AnimationTranslationTrack.get_sample (track : AnimationTranslationTrack) (i : ℕ) : Vec3 :=
  track.samples.getD i ⟨0, 0, 0⟩

/-- Source `AnimationRotationTrack::sample_track` (animation_track.h lines
171-183): `duration = (num_samples - 1) / sample_rate`, interpolation keys,
then `quat_lerp(sample0, sample1, alpha)`. -/
def AnimationRotationTrack.sample_track (track : AnimationRotationTrack)
    (sample_time : ℚ) : Quat4 :=
  let track_duration : ℚ := ((track.num_samples : ℚ) - 1) / (track.sample_rate : ℚ)
  let keys := calculate_interpolation_keys track.num_samples track_duration sample_time
  quat_lerp (track.get_sample keys.1) (track.get_sample keys.2.1) keys.2.2

/-- Source `AnimationTranslationTrack::sample_track` (animation_track.h lines
237-249). -/
def AnimationTranslationTrack.sample_track (track : AnimationTranslationTrack)
    (sample_time : ℚ) : Vec3 :=
  let track_duration : ℚ := ((track.num_samples : ℚ) - 1) / (track.sample_rate : ℚ)
  let keys := calculate_interpolation_keys track.num_samples track_duration sample_time
  vector_lerp (track.get_sample keys.1) (track.get_sample keys.2.1) keys.2.2

/-- The sampling procedure as the claim words it: derive
`duration = (S-1)/R`, clamp `t` to `[0, duration]`, take
`frame0 = floor(t·R)`, `frame1 = min(frame0+1, S-1)`, `alpha = t·R - frame0`,
and linearly interpolate the two surrounding samples. -/
def claimed_rotation_sample (track : AnimationRotationTrack) (t : ℚ) : Quat4 :=
  let duration : ℚ := ((track.num_samples : ℚ) - 1) / (track.sample_rate : ℚ)
  let tc := clamp t 0 duration
  let pos := tc * (track.sample_rate : ℚ)
  let frame0 : ℕ := (⌊pos⌋).toNat
  let frame1 : ℕ := min (frame0 + 1) (track.num_samples - 1)
  quat_lerp (track.get_sample frame0) (track.get_sample frame1) (pos - (frame0 : ℚ))

/-- Translation counterpart of `claimed_rotation_sample`. -/
def claimed_translation_sample (track : AnimationTranslationTrack) (t : ℚ) : Vec3 :=
  let duration : ℚ := ((track.num_samples : ℚ) - 1) / (track.sample_rate : ℚ)
  let tc := clamp t 0 duration
  let pos := tc * (track.sample_rate : ℚ)
  let frame0 : ℕ := (⌊pos⌋).toNat
  let frame1 : ℕ := min (frame0 + 1) (track.num_samples - 1)
  vector_lerp (track.get_sample frame0) (track.get_sample frame1) (pos - (frame0 : ℚ))

/-! ### Algorithm types and flags

`RotationFormat8`, `VectorFormat8` and `RangeReductionFlags8` come from
`acl/core/algorithm_types.h`, which is not among the sources; the variants
are those named by the encoder and §4.5 of the spec.  The flag byte is
modelled as three independent booleans. -/

inductive RotationFormat8 where
  | Quat_128
  | Quat_96
  | Quat_48
  | Quat_32
deriving DecidableEq, Repr

inductive VectorFormat8 where
  | Vector3_96
  | Vector3_48
  | Vector3_32
deriving DecidableEq, Repr

structure RangeReductionFlags8 where
  perClip : Bool
  rotations : Bool
  translations : Bool
deriving DecidableEq, Repr

/-- The `RangeReductionFlags8::None` flag value. -/
def RangeReductionFlags8.NoFlags : RangeReductionFlags8 := ⟨false, false, false⟩

/-- The `RangeReductionFlags8::PerClip` flag bit. -/
def RangeReductionFlags8.PerClip : RangeReductionFlags8 := ⟨true, false, false⟩

/-- The `RangeReductionFlags8::Rotations` flag bit. -/
def RangeReductionFlags8.Rotations : RangeReductionFlags8 := ⟨false, true, false⟩

/-- The `RangeReductionFlags8::Translations` flag bit. -/
def RangeReductionFlags8.Translations : RangeReductionFlags8 := ⟨false, false, true⟩

/-- Bitwise-or of two flag values (the `|` of the C++ enum helpers). -/
def RangeReductionFlags8.orFlags (a b : RangeReductionFlags8) : RangeReductionFlags8 :=
  ⟨a.perClip || b.perClip, a.rotations || b.rotations, a.translations || b.translations⟩

/-- Modelled from the spec: `are_enum_flags_set` lives in
`acl/core/enum_utils.h`, which is not among the sources; it holds when every
bit of `mask` is set in `flags` (`(flags & mask) == mask`). -/
def are_enum_flags_set (flags mask : RangeReductionFlags8) : Bool :=
  (!mask.perClip || flags.perClip) && (!mask.rotations || flags.rotations)
    && (!mask.translations || flags.translations)

/-- Modelled from the spec: `is_enum_flag_set` lives in
`acl/core/enum_utils.h`; it holds when some bit of `mask` is set in `flags`
(`(flags & mask) != 0`). -/
def is_enum_flag_set (flags mask : RangeReductionFlags8) : Bool :=
  (flags.perClip && mask.perClip) || (flags.rotations && mask.rotations)
    || (flags.translations && mask.translations)

/-- Source `CompressionSettings` (encoder.h lines 68-80). -/
structure CompressionSettings where
  rotation_format : RotationFormat8
  translation_format : VectorFormat8
  range_reduction : RangeReductionFlags8
deriving DecidableEq, Repr

/-! ### Clip, skeleton and bone streams -/

/-- One bone of a raw clip: `num_samples` rotation and translation samples. -/
structure ClipBone where
  rotations : List Quat4
  translations : List Vec3
deriving DecidableEq, Repr

/-- The `AnimationClip` interface the encoder consumes
(`get_num_bones`, `get_num_samples`, `get_sample_rate` plus per-bone
tracks); `acl/compression/animation_clip.h` is not among the sources, so the
record keeps exactly the attributes of the spec's data model (§3). -/
structure AnimationClip where
  num_samples : ℕ
  sample_rate : ℕ
  bones : List ClipBone
deriving DecidableEq, Repr

def AnimationClip.get_num_bones (clip : AnimationClip) : ℕ := clip.bones.length

def AnimationClip.get_num_samples (clip : AnimationClip) : ℕ := clip.num_samples

def AnimationClip.get_sample_rate (clip : AnimationClip) : ℕ := clip.sample_rate

/-- spec §3: ordered bones with a parent index each (root has a sentinel);
the encoder takes the skeleton but the shown code never reads it. -/
structure RigidSkeleton where
  parents : List ℕ
deriving DecidableEq, Repr

/-- spec §3 `BoneStreams`: per-bone columnar streams with the
default/constant flags and, after normalization, per-bone range pairs
(`acl/compression/stream/track_stream.h` is not among the sources). -/
structure BoneStreams where
  rotations : List Quat4
  translations : List Vec3
  is_rotation_default : Bool
  is_rotation_constant : Bool
  is_translation_default : Bool
  is_translation_constant : Bool
  rotation_range : Option (Quat4 × Quat4)
  translation_range : Option (Vec3 × Vec3)
deriving DecidableEq, Repr

/-! ### Pipeline stages

All stage bodies live under `acl/compression/stream/`, which is not among
the sources; each is modelled from the spec section cited in its comment. -/

/-- Modelled from the spec (§4.1): the track-stream builder copies the
clip's per-bone tracks into the columnar representation; no flags set yet. -/
def convert_clip_to_streams (clip : AnimationClip) : List BoneStreams :=
  clip.bones.map fun b =>
    ⟨b.rotations, b.translations, false, false, false, false, none, none⟩

/-- Modelled from the spec (§4.2): rewrite every rotation sample into the
storage shape of the target format; formats that drop w flip the quaternion
into the w ≥ 0 hemisphere first.  `Quat_128` keeps samples untouched. -/
def convert_rotation_sample (format : RotationFormat8) (q : Quat4) : Quat4 :=
  match format with
  | .Quat_128 => q
  | _ => if q.w < 0 then quat_neg q else q

def convert_rotation_streams (streams : List BoneStreams) (format : RotationFormat8) :
    List BoneStreams :=
  streams.map fun b =>
    { b with rotations := b.rotations.map (convert_rotation_sample format) }

/-- Modelled from the spec (§4.3): a rotation track is default when every
sample is within the tolerance of the identity, measured as
dot-with-identity ≥ 1 - ε. -/
def rotation_track_is_default (samples : List Quat4) (threshold : ℚ) : Bool :=
  samples.all fun q => 1 - threshold ≤ quat_dot q ⟨0, 0, 0, 1⟩

/-- Modelled from the spec (§4.3): constant when every sample is within the
tolerance of the first sample. -/
def rotation_track_is_constant (samples : List Quat4) (threshold : ℚ) : Bool :=
  match samples with
  | [] => true
  | q0 :: _ => samples.all fun q => 1 - threshold ≤ quat_dot q q0

/-- Component-wise closeness for translation tolerances (§4.3). -/
def vector_near (a b : Vec3) (threshold : ℚ) : Bool :=
  |a.x - b.x| < threshold && |a.y - b.y| < threshold && |a.z - b.z| < threshold

def translation_track_is_default (samples : List Vec3) (threshold : ℚ) : Bool :=
  samples.all fun v => vector_near v ⟨0, 0, 0⟩ threshold

def translation_track_is_constant (samples : List Vec3) (threshold : ℚ) : Bool :=
  match samples with
  | [] => true
  | v0 :: _ => samples.all fun v => vector_near v v0 threshold

/-- Modelled from the spec (§4.3): mark default and constant tracks; default
dominates constant; default tracks keep no samples, constant tracks keep one
representative sample. -/
def compact_constant_streams (streams : List BoneStreams) (threshold : ℚ) :
    List BoneStreams :=
  streams.map fun b =>
    let rd := rotation_track_is_default b.rotations threshold
    let rc := rotation_track_is_constant b.rotations threshold
    let td := translation_track_is_default b.translations threshold
    let tc := translation_track_is_constant b.translations threshold
    { b with
      is_rotation_default := rd
      is_rotation_constant := rd || rc
      is_translation_default := td
      is_translation_constant := td || tc
      rotations := if rd then [] else if rc then b.rotations.take 1 else b.rotations
      translations := if td then [] else if tc then b.translations.take 1 else b.translations }

def bone_has_constant_rotation (b : BoneStreams) : Bool :=
  !b.is_rotation_default && b.is_rotation_constant

def bone_has_constant_translation (b : BoneStreams) : Bool :=
  !b.is_translation_default && b.is_translation_constant

def bone_has_animated_rotation (b : BoneStreams) : Bool :=
  !b.is_rotation_default && !b.is_rotation_constant

def bone_has_animated_translation (b : BoneStreams) : Bool :=
  !b.is_translation_default && !b.is_translation_constant

/-- `(s - min) / extent` with the extent-underflow rule of §4.4: where the
extent is zero, emit 0. -/
def normalize_scalar (s mn extent : ℚ) : ℚ :=
  if extent = 0 then 0 else (s - mn) / extent

def vec_component_min (a b : Vec3) : Vec3 := ⟨min a.x b.x, min a.y b.y, min a.z b.z⟩

def vec_component_max (a b : Vec3) : Vec3 := ⟨max a.x b.x, max a.y b.y, max a.z b.z⟩

def quat_component_min (a b : Quat4) : Quat4 :=
  ⟨min a.x b.x, min a.y b.y, min a.z b.z, min a.w b.w⟩

def quat_component_max (a b : Quat4) : Quat4 :=
  ⟨max a.x b.x, max a.y b.y, max a.z b.z, max a.w b.w⟩

/-- Per-track (min, extent) of a translation stream (§4.4). -/
def translation_track_range (samples : List Vec3) : Vec3 × Vec3 :=
  match samples with
  | [] => (⟨0, 0, 0⟩, ⟨0, 0, 0⟩)
  | v :: rest =>
    let mn := rest.foldl vec_component_min v
    let mx := rest.foldl vec_component_max v
    (mn, ⟨mx.x - mn.x, mx.y - mn.y, mx.z - mn.z⟩)

/-- Per-track (min, extent) of a rotation stream (§4.4). -/
def rotation_track_range (samples : List Quat4) : Quat4 × Quat4 :=
  match samples with
  | [] => (⟨0, 0, 0, 0⟩, ⟨0, 0, 0, 0⟩)
  | q :: rest =>
    let mn := rest.foldl quat_component_min q
    let mx := rest.foldl quat_component_max q
    (mn, ⟨mx.x - mn.x, mx.y - mn.y, mx.z - mn.z, mx.w - mn.w⟩)

def normalize_translation_sample (range : Vec3 × Vec3) (v : Vec3) : Vec3 :=
  ⟨normalize_scalar v.x range.1.x range.2.x, normalize_scalar v.y range.1.y range.2.y,
   normalize_scalar v.z range.1.z range.2.z⟩

def normalize_rotation_sample (range : Quat4 × Quat4) (q : Quat4) : Quat4 :=
  ⟨normalize_scalar q.x range.1.x range.2.x, normalize_scalar q.y range.1.y range.2.y,
   normalize_scalar q.z range.1.z range.2.z, normalize_scalar q.w range.1.w range.2.w⟩

/-- Modelled from the spec (§4.4): when the `Rotations` kind is enabled,
rewrite every animated rotation track to `(s - min)/extent` and record the
per-bone range pair. -/
def normalize_rotation_streams (streams : List BoneStreams)
    (range_reduction : RangeReductionFlags8) (_format : RotationFormat8) :
    List BoneStreams :=
  if range_reduction.rotations then
    streams.map fun b =>
      if bone_has_animated_rotation b then
        let range := rotation_track_range b.rotations
        { b with
          rotations := b.rotations.map (normalize_rotation_sample range)
          rotation_range := some range }
      else b
  else streams

/-- Modelled from the spec (§4.4): translation counterpart. -/
def normalize_translation_streams (streams : List BoneStreams)
    (range_reduction : RangeReductionFlags8) : List BoneStreams :=
  if range_reduction.translations then
    streams.map fun b =>
      if bone_has_animated_translation b then
        let range := translation_track_range b.translations
        { b with
          translations := b.translations.map (normalize_translation_sample range)
          translation_range := some range }
      else b
  else streams

/-- Dequantized value of a scalar quantized to `bits` bits: round to nearest
at the LSB, clamp into range, inverse affine map (§4.5). -/
def quantize_unit_scalar (bits : ℕ) (s : ℚ) : ℚ :=
  let m : ℤ := 2 ^ bits - 1
  let q : ℤ := max 0 (min (round (s * (m : ℚ))) m)
  (q : ℚ) / (m : ℚ)

/-- Modelled from the spec (§4.5): per-component widths of each rotation
format; `Quat_128` and `Quat_96` store raw 32-bit floats (identity here);
the reconstruction of the dropped w at decode is not modelled. -/
def quantize_rotation_sample (format : RotationFormat8) (q : Quat4) : Quat4 :=
  match format with
  | .Quat_128 => q
  | .Quat_96 => q
  | .Quat_48 => ⟨quantize_unit_scalar 15 q.x, quantize_unit_scalar 15 q.y,
      quantize_unit_scalar 15 q.z, q.w⟩
  | .Quat_32 => ⟨quantize_unit_scalar 11 q.x, quantize_unit_scalar 11 q.y,
      quantize_unit_scalar 10 q.z, q.w⟩

/-- Modelled from the spec (§4.5): per-component widths of each vector
format; `Vector3_96` stores raw floats. -/
def quantize_translation_sample (format : VectorFormat8) (v : Vec3) : Vec3 :=
  match format with
  | .Vector3_96 => v
  | .Vector3_48 => ⟨quantize_unit_scalar 16 v.x, quantize_unit_scalar 16 v.y,
      quantize_unit_scalar 16 v.z⟩
  | .Vector3_32 => ⟨quantize_unit_scalar 11 v.x, quantize_unit_scalar 11 v.y,
      quantize_unit_scalar 10 v.z⟩

/-- Modelled from the spec (§4.5): quantize every stored (non-default)
rotation track at the chosen width. -/
def quantize_rotation_streams (streams : List BoneStreams) (format : RotationFormat8) :
    List BoneStreams :=
  streams.map fun b =>
    if b.is_rotation_default then b
    else { b with rotations := b.rotations.map (quantize_rotation_sample format) }

/-- Modelled from the spec (§4.5 with §3: constant translations stay at full
precision): quantize the animated translation tracks at the chosen width. -/
def quantize_translation_streams (streams : List BoneStreams) (format : VectorFormat8) :
    List BoneStreams :=
  streams.map fun b =>
    if bone_has_animated_translation b then
      { b with translations := b.translations.map (quantize_translation_sample format) }
    else b

/-! ### Counts and sizes -/

/-- Modelled from the spec: `get_num_animated_streams`
(`acl/compression/stream/get_num_animated_streams.h` is not among the
sources) counts, per kind, the constant (non-default) and animated tracks.
The four projections below stand for its four out-parameters. -/
def get_num_constant_rotation_tracks (streams : List BoneStreams) : ℕ :=
  streams.countP bone_has_constant_rotation

def get_num_constant_translation_tracks (streams : List BoneStreams) : ℕ :=
  streams.countP bone_has_constant_translation

def get_num_animated_rotation_tracks (streams : List BoneStreams) : ℕ :=
  streams.countP bone_has_animated_rotation

def get_num_animated_translation_tracks (streams : List BoneStreams) : ℕ :=
  streams.countP bone_has_animated_translation

/-- Modelled from the spec (§4.5 table): packed byte size of one rotation
sample. -/
def get_packed_rotation_size (format : RotationFormat8) : ℕ :=
  match format with
  | .Quat_128 => 16
  | .Quat_96 => 12
  | .Quat_48 => 6
  | .Quat_32 => 4

/-- Modelled from the spec (§4.5 table): packed byte size of one vector
sample. -/
def get_packed_vector_size (format : VectorFormat8) : ℕ :=
  match format with
  | .Vector3_96 => 12
  | .Vector3_48 => 6
  | .Vector3_32 => 4

/-- Modelled from the spec (§4.4): byte size of a (min, extent) pair stored
in the storage shape of the rotation format at full (32-bit float)
precision: 2 × 4 floats for `Quat_128`, 2 × 3 floats for the drop-w shapes. -/
def get_rotation_range_pair_size (format : RotationFormat8) : ℕ :=
  match format with
  | .Quat_128 => 32
  | _ => 24

/-- Modelled from the spec (§4.4): the range-data region holds one
(min, extent) pair per animated track of each kind enabled in the flags;
translation pairs are 2 × 3 floats.  The translation format argument is kept
for signature fidelity; translation range pairs are always full precision. -/
def get_stream_range_data_size (streams : List BoneStreams)
    (range_reduction : RangeReductionFlags8) (rotation_format : RotationFormat8)
    (_translation_format : VectorFormat8) : ℕ :=
  (if range_reduction.rotations then
    get_num_animated_rotation_tracks streams * get_rotation_range_pair_size rotation_format
  else 0)
    + (if range_reduction.translations then
      get_num_animated_translation_tracks streams * 24
    else 0)

/-- Modelled from the spec (§6): `bitset_size = ceil(bit_count / 32)` words
(`acl/core/bitset.h` is not among the sources). -/
def get_bitset_size (bit_count : ℕ) : ℕ := (bit_count + 31) / 32

/-- Source `align_to` (memory.h lines 227-231):
`(value + (alignment - 1)) & ~(alignment - 1)`; for the power-of-two
alignments used by the encoder this equals rounding up to a multiple. -/
def align_to (value alignment : ℕ) : ℕ := (value + alignment - 1) / alignment * alignment

/-- Modelled from the spec (§6): the fixed preamble `CompressedClip` is
16 bytes (magic, version, algorithm tag, reserved, total size, CRC). -/
def sizeof_CompressedClip : ℕ := 16

/-- Modelled from the spec (§4.7): the fixed header is 40 bytes
(u16 + 3 × u8 + padding, then four u32 counts/rates and five u32 offsets
starting at the defaults bitset offset... counts `num_samples`,
`sample_rate`, two animated-track counts, and the region offsets). -/
def sizeof_FullPrecisionHeader : ℕ := 40

/-- `FullPrecisionConstants::NUM_TRACKS_PER_BONE` (common.h is not among the
sources): rotation and translation, per §6 bit layout. -/
def NUM_TRACKS_PER_BONE : ℕ := 2

/-- The all-ones u32 sentinel `InvalidPtrOffset()` (memory.h lines 262-270:
`std::numeric_limits<OffsetType>::max()` for `PtrOffset32`). -/
def InvalidPtrOffset32 : ℕ := 4294967295

/-! ### The encoder, from `acl/algorithm/uniformly_sampled/encoder.h`

`compress_clip` (lines 83-187) is split into named pieces so that the
theorems can speak about each quantity; the pieces compose exactly in the
source's order. -/

/-- Streams after clip conversion, rotation conversion and constant
compaction with the literal tolerance `0.00001` (encoder.h lines 101-103). -/
def pre_range_bone_streams (clip : AnimationClip) (settings : CompressionSettings) :
    List BoneStreams :=
  compact_constant_streams
    (convert_rotation_streams (convert_clip_to_streams clip) settings.rotation_format)
    (1 / 100000)

/-- Streams after the optional per-clip normalization pass
(encoder.h lines 105-111). -/
def normalized_bone_streams (clip : AnimationClip) (settings : CompressionSettings) :
    List BoneStreams :=
  if is_enum_flag_set settings.range_reduction RangeReductionFlags8.PerClip then
    normalize_translation_streams
      (normalize_rotation_streams (pre_range_bone_streams clip settings)
        settings.range_reduction settings.rotation_format)
      settings.range_reduction
  else pre_range_bone_streams clip settings

/-- `clip_range_data_size` (encoder.h lines 105-111): zero unless the
`PerClip` flag is set. -/
def compressed_clip_range_data_size (clip : AnimationClip)
    (settings : CompressionSettings) : ℕ :=
  if is_enum_flag_set settings.range_reduction RangeReductionFlags8.PerClip then
    get_stream_range_data_size (normalized_bone_streams clip settings)
      settings.range_reduction settings.rotation_format settings.translation_format
  else 0

/-- Streams after quantization (encoder.h lines 113-114). -/
def final_bone_streams (clip : AnimationClip) (settings : CompressionSettings) :
    List BoneStreams :=
  quantize_translation_streams
    (quantize_rotation_streams (normalized_bone_streams clip settings)
      settings.rotation_format)
    settings.translation_format

/-- `constant_data_size` (encoder.h lines 122-127): one sample per constant
rotation track at the chosen rotation width plus one sample per constant
translation track at full `Vector3_96` width. -/
def compressed_constant_data_size (clip : AnimationClip)
    (settings : CompressionSettings) : ℕ :=
  get_packed_rotation_size settings.rotation_format
      * get_num_constant_rotation_tracks (final_bone_streams clip settings)
    + get_packed_vector_size VectorFormat8.Vector3_96
      * get_num_constant_translation_tracks (final_bone_streams clip settings)

/-- Per-frame animated data size (encoder.h line 128). -/
def compressed_animated_frame_size (clip : AnimationClip)
    (settings : CompressionSettings) : ℕ :=
  get_packed_rotation_size settings.rotation_format
      * get_num_animated_rotation_tracks (final_bone_streams clip settings)
    + get_packed_vector_size settings.translation_format
      * get_num_animated_translation_tracks (final_bone_streams clip settings)

/-- `animated_data_size` after `*= num_samples` (encoder.h line 130). -/
def compressed_animated_data_size (clip : AnimationClip)
    (settings : CompressionSettings) : ℕ :=
  compressed_animated_frame_size clip settings * clip.get_num_samples

/-- `bitset_size` (encoder.h line 132). -/
def compressed_bitset_size (clip : AnimationClip) : ℕ :=
  get_bitset_size (clip.get_num_bones * NUM_TRACKS_PER_BONE)

/-- `buffer_size` (encoder.h lines 134-143), accumulated exactly as the
source does: preamble, header, two bitsets, constant data, align 4, range
data, align 4, animated data. -/
def compressed_buffer_size (clip : AnimationClip) (settings : CompressionSettings) : ℕ :=
  align_to
      (align_to
        (sizeof_CompressedClip + sizeof_FullPrecisionHeader
          + 4 * compressed_bitset_size clip + 4 * compressed_bitset_size clip
          + compressed_constant_data_size clip settings)
        4
      + compressed_clip_range_data_size clip settings)
    4
  + compressed_animated_data_size clip settings

/-- Source `FullPrecisionHeader` (common.h is not among the sources; fields
are the ones the encoder fills at lines 150-162 and §4.7 lists). -/
structure FullPrecisionHeader where
  num_bones : ℕ
  rotation_format : RotationFormat8
  translation_format : VectorFormat8
  range_reduction : RangeReductionFlags8
  num_samples : ℕ
  sample_rate : ℕ
  num_animated_rotation_tracks : ℕ
  num_animated_translation_tracks : ℕ
  default_tracks_bitset_offset : ℕ
  constant_tracks_bitset_offset : ℕ
  constant_track_data_offset : ℕ
  clip_range_data_offset : ℕ
  track_data_offset : ℕ
deriving DecidableEq, Repr

/-- The header the encoder writes (encoder.h lines 149-180), including the
sentinel replacement for the empty constant region, the empty animated
region and — keyed on the `PerClip` flag, not on emptiness — the range
region. -/
def compressed_header (clip : AnimationClip) (settings : CompressionSettings) :
    FullPrecisionHeader :=
  let bitset_size := compressed_bitset_size clip
  let constant_data_size := compressed_constant_data_size clip settings
  let clip_range_data_size := compressed_clip_range_data_size clip settings
  let animated_data_size := compressed_animated_data_size clip settings
  let default_tracks_bitset_offset := sizeof_FullPrecisionHeader
  let constant_tracks_bitset_offset := default_tracks_bitset_offset + 4 * bitset_size
  let constant_track_data_offset := constant_tracks_bitset_offset + 4 * bitset_size
  let clip_range_data_offset := align_to (constant_track_data_offset + constant_data_size) 4
  let track_data_offset := align_to (clip_range_data_offset + clip_range_data_size) 4
  { num_bones := clip.get_num_bones
    rotation_format := settings.rotation_format
    translation_format := settings.translation_format
    range_reduction := settings.range_reduction
    num_samples := clip.get_num_samples
    sample_rate := clip.get_sample_rate
    num_animated_rotation_tracks :=
      get_num_animated_rotation_tracks (final_bone_streams clip settings)
    num_animated_translation_tracks :=
      get_num_animated_translation_tracks (final_bone_streams clip settings)
    default_tracks_bitset_offset := default_tracks_bitset_offset
    constant_tracks_bitset_offset := constant_tracks_bitset_offset
    constant_track_data_offset :=
      if 0 < constant_data_size then constant_track_data_offset else InvalidPtrOffset32
    clip_range_data_offset :=
      if is_enum_flag_set settings.range_reduction RangeReductionFlags8.PerClip then
        clip_range_data_offset
      else InvalidPtrOffset32
    track_data_offset :=
      if 0 < animated_data_size then track_data_offset else InvalidPtrOffset32 }

/-- The artifact the model returns: the allocated buffer's size and
alignment, the header, and the region sizes the encoder computed. -/
structure CompressedArtifact where
  buffer_size : ℕ
  buffer_alignment : ℕ
  header : FullPrecisionHeader
  bitset_size : ℕ
  constant_data_size : ℕ
  clip_range_data_size : ℕ
  animated_data_size : ℕ
deriving DecidableEq, Repr

/-- The pipeline stages of §2/§4, used for the compress-call event trace. -/
inductive PipelineStage where
  | convertClipToStreams
  | convertRotationStreams
  | compactConstantStreams (threshold : ℚ)
  | normalizeRotationStreams
  | normalizeTranslationStreams
  | quantizeRotationStreams
  | quantizeTranslationStreams
deriving DecidableEq, Repr

/-- Observable events of one `compress_clip` call: stage executions in
order, and buffer allocations with their size and alignment. -/
inductive CompressEvent where
  | stage (s : PipelineStage)
  | alloc (size alignment : ℕ)
deriving DecidableEq, Repr

/-- The event trace of a successful compress call: the stages in source
order (encoder.h lines 101-114), the normalization pair only under the
`PerClip` flag, and the single 16-byte-aligned buffer allocation
(encoder.h line 145). -/
def compress_events (clip : AnimationClip) (settings : CompressionSettings) :
    List CompressEvent :=
  [CompressEvent.stage PipelineStage.convertClipToStreams,
   CompressEvent.stage PipelineStage.convertRotationStreams,
   CompressEvent.stage (PipelineStage.compactConstantStreams (1 / 100000))]
  ++ (if is_enum_flag_set settings.range_reduction RangeReductionFlags8.PerClip then
      [CompressEvent.stage PipelineStage.normalizeRotationStreams,
       CompressEvent.stage PipelineStage.normalizeTranslationStreams]
    else [])
  ++ [CompressEvent.stage PipelineStage.quantizeRotationStreams,
      CompressEvent.stage PipelineStage.quantizeTranslationStreams,
      CompressEvent.alloc (compressed_buffer_size clip settings) 16]

/-- Source `compress_clip` (encoder.h lines 83-187).  The three guards
(lines 90-99) fire `ACL_TRY_ASSERT` — which reports the failed precondition
and makes the guard return `nullptr` before anything is allocated or any
stage runs — modelled as `none` with an empty event trace.  On the success
path the artifact and the event trace are produced as in the source. -/
def compress_clip (clip : AnimationClip) (skeleton : RigidSkeleton)
    (settings : CompressionSettings) : Option CompressedArtifact × List CompressEvent :=
  if clip.get_num_bones = 0 then (none, [])
  else if clip.get_num_samples = 0 then (none, [])
  else if settings.translation_format ≠ VectorFormat8.Vector3_96
      ∧ are_enum_flags_set settings.range_reduction
          (RangeReductionFlags8.PerClip.orFlags RangeReductionFlags8.Translations) = false then
    (none, [])
  else
    (some
      { buffer_size := compressed_buffer_size clip settings
        buffer_alignment := 16
        header := compressed_header clip settings
        bitset_size := compressed_bitset_size clip
        constant_data_size := compressed_constant_data_size clip settings
        clip_range_data_size := compressed_clip_range_data_size clip settings
        animated_data_size := compressed_animated_data_size clip settings },
     compress_events clip settings)

/-- Stage sub-trace of an event list. -/
def stage_trace (events : List CompressEvent) : List PipelineStage :=
  events.filterMap fun e =>
    match e with
    | .stage s => some s
    | .alloc _ _ => none

/-! ### Claim-side formulations for C4 and C5 -/

/-- The buffer-size formula as claim C4 words it: fixed preamble + header
+ two bitsets of `bitset_size` 32-bit words + constant data size, aligned
up to 4, + range data size, aligned up to 4, + animated data size × number
of samples. -/
def claimed_buffer_size (clip : AnimationClip) (settings : CompressionSettings) : ℕ :=
  align_to
      (align_to
        (sizeof_CompressedClip + sizeof_FullPrecisionHeader
          + 2 * (4 * compressed_bitset_size clip)
          + compressed_constant_data_size clip settings)
        4
      + compressed_clip_range_data_size clip settings)
    4
  + compressed_animated_frame_size clip settings * clip.get_num_samples

/-- Constant-region bytes contributed by one bone, as claim C5 words it:
one sample at the chosen rotation width for a constant rotation track, one
sample at full `Vector3_96` width for a constant translation track
(regardless of the chosen translation format), nothing for default
tracks. -/
def constant_bytes_of_bone (rotation_format : RotationFormat8) (b : BoneStreams) : ℕ :=
  (if bone_has_constant_rotation b then get_packed_rotation_size rotation_format else 0)
    + (if bone_has_constant_translation b then
      get_packed_vector_size VectorFormat8.Vector3_96
    else 0)

/-- Animated-region bytes contributed by one bone: `num_samples` samples at
the chosen widths for each animated track, nothing otherwise. -/
def animated_bytes_of_bone (rotation_format : RotationFormat8)
    (translation_format : VectorFormat8) (num_samples : ℕ) (b : BoneStreams) : ℕ :=
  (if bone_has_animated_rotation b then
    num_samples * get_packed_rotation_size rotation_format
  else 0)
    + (if bone_has_animated_translation b then
      num_samples * get_packed_vector_size translation_format
    else 0)

/-! ### Decoder model for claim C9

The decoder (`decompress_pose` / `decompress_bone`) is not among the
sources — only its caller `find_max_error` (main.cpp lines 316-364) is —
so it is modelled from §4.8 of the spec.  The blob model stores, per track,
its classification and its dequantized samples; the seek math follows §4.8
steps 1-4.  The post-lerp renormalization has no exact-rational square
root, so both entry points take it as a shared `qnorm` parameter. -/

inductive TrackMode where
  | defaulted
  | constant
  | animated
deriving DecidableEq, Repr

structure DecodedRotationTrack where
  mode : TrackMode
  constant_sample : Quat4
  samples : List Quat4
deriving DecidableEq, Repr

structure DecodedTranslationTrack where
  mode : TrackMode
  constant_sample : Vec3
  samples : List Vec3
deriving DecidableEq, Repr

structure CompressedBlob where
  num_samples : ℕ
  sample_rate : ℕ
  rotation_tracks : List DecodedRotationTrack
  translation_tracks : List DecodedTranslationTrack
deriving DecidableEq, Repr

/-- Modelled from the spec (§4.8 step 4, rotations): default → identity,
constant → the stored sample, animated → seek, dequantize the two frames,
lerp with hemisphere selection (negate q1 when `dot(q0,q1) < 0`), then
renormalize via `qnorm`. -/
def decode_rotation (qnorm : Quat4 → Quat4) (blob : CompressedBlob) (t : ℚ)
    (track : DecodedRotationTrack) : Quat4 :=
  match track.mode with
  | .defaulted => ⟨0, 0, 0, 1⟩
  | .constant => track.constant_sample
  | .animated =>
    let duration : ℚ := ((blob.num_samples : ℚ) - 1) / (blob.sample_rate : ℚ)
    let tc := clamp t 0 duration
    let pos := tc * (blob.sample_rate : ℚ)
    let frame0 : ℕ := (⌊pos⌋).toNat
    let frame1 : ℕ := min (frame0 + 1) (blob.num_samples - 1)
    let alpha := pos - (frame0 : ℚ)
    let q0 := track.samples.getD frame0 ⟨0, 0, 0, 1⟩
    let q1 := track.samples.getD frame1 ⟨0, 0, 0, 1⟩
    let q1h := if quat_dot q0 q1 < 0 then quat_neg q1 else q1
    qnorm (quat_lerp q0 q1h alpha)

/-- Modelled from the spec (§4.8 step 4, translations): plain lerp. -/
def decode_translation (blob : CompressedBlob) (t : ℚ)
    (track : DecodedTranslationTrack) : Vec3 :=
  match track.mode with
  | .defaulted => ⟨0, 0, 0⟩
  | .constant => track.constant_sample
  | .animated =>
    let duration : ℚ := ((blob.num_samples : ℚ) - 1) / (blob.sample_rate : ℚ)
    let tc := clamp t 0 duration
    let pos := tc * (blob.sample_rate : ℚ)
    let frame0 : ℕ := (⌊pos⌋).toNat
    let frame1 : ℕ := min (frame0 + 1) (blob.num_samples - 1)
    let alpha := pos - (frame0 : ℚ)
    vector_lerp (track.samples.getD frame0 ⟨0, 0, 0⟩)
      (track.samples.getD frame1 ⟨0, 0, 0⟩) alpha

/-- Modelled from the spec (§4.8): decode every bone of the pose. -/
def decompress_pose (qnorm : Quat4 → Quat4) (blob : CompressedBlob) (t : ℚ) :
    List (Quat4 × Vec3) :=
  List.zipWith
    (fun r tr => (decode_rotation qnorm blob t r, decode_translation blob t tr))
    blob.rotation_tracks blob.translation_tracks

/-- Modelled from the spec (§4.8): same math, single bone. -/
def decompress_bone (qnorm : Quat4 → Quat4) (blob : CompressedBlob) (t : ℚ) (b : ℕ) :
    Quat4 × Vec3 :=
  (decode_rotation qnorm blob t
      (blob.rotation_tracks.getD b ⟨TrackMode.defaulted, ⟨0, 0, 0, 1⟩, []⟩),
   decode_translation blob t
      (blob.translation_tracks.getD b ⟨TrackMode.defaulted, ⟨0, 0, 0⟩, []⟩))

end acl

namespace acl

/-! ### Theorems for claims C2 and C10 -/

/-- C10: `deg2rad(deg)` returns `(deg / 360) × ACL_PI_64` with
`ACL_PI_64 = 3.141592654`, which is half of the conventional conversion
`deg × π / 180`; in particular `deg2rad(180)` evaluates to `π/2`, not `π`. -/
theorem deg2rad_is_half_of_conventional :
    (∀ deg : ℚ, deg2rad deg = deg / 360 * ACL_PI_64
      ∧ deg2rad deg = deg * ACL_PI_64 / 180 / 2)
    ∧ deg2rad 180 = ACL_PI_64 / 2
    ∧ deg2rad 180 ≠ ACL_PI_64 := by
  refine ⟨fun deg => ⟨rfl, by unfold deg2rad; ring⟩, by unfold deg2rad; ring, ?_⟩
  unfold deg2rad ACL_PI_64
  norm_num

/-- C2: the claim states that `quat_normalize` always returns a quaternion of
unit length.  The code contradicts it (and the spec's own `‖q‖≈1` invariant):
`quat_length_squared` squares only the x component, adding the doubled y, z, w
components instead.  At the finite, not-all-zero input `(0, 1/2, 0, 0)` the
code computes a squared length of `1`, so `quat_normalize` returns the input
unchanged, whose true squared length is `1/4`, not `1`. -/
theorem quat_normalize_result_not_unit_length :
    quat_length_squared (quat_set 0 (1/2) 0 0) = 1
    ∧ quat_normalize (quat_set 0 (1/2) 0 0) = quat_set 0 (1/2) 0 0
    ∧ quat_true_length_squared (quat_normalize (quat_set 0 (1/2) 0 0)) = 1/4
    ∧ quat_true_length_squared (quat_normalize (quat_set 0 (1/2) 0 0)) ≠ 1 := by
  have hsq : quat_length_squared (quat_set 0 (1/2) 0 0) = 1 := by
    unfold quat_length_squared quat_set quat_get_x quat_get_y quat_get_z quat_get_w
    norm_num
  have hrecip : quat_length_reciprocal (quat_set 0 (1/2) 0 0) = 1 := by
    unfold quat_length_reciprocal
    rw [hsq, Real.sqrt_one]
    norm_num
  have hnorm : quat_normalize (quat_set 0 (1/2) 0 0) = quat_set 0 (1/2) 0 0 := by
    unfold quat_normalize
    rw [hrecip]
    unfold quat_set quat_get_x quat_get_y quat_get_z quat_get_w
    norm_num
  refine ⟨hsq, hnorm, ?_, ?_⟩
  · rw [hnorm]
    unfold quat_true_length_squared quat_set
    norm_num
  · rw [hnorm]
    unfold quat_true_length_squared quat_set
    norm_num

/-! ### Lemmas and the theorem for claim C8 -/

theorem quat_lerp_zero (a b : Quat4) : quat_lerp a b 0 = a := by
  simp [quat_lerp]

theorem vector_lerp_zero (a b : Vec3) : vector_lerp a b 0 = a := by
  simp [vector_lerp]

theorem clamp_zero_zero (t : ℚ) : clamp t 0 0 = 0 := by
  unfold clamp
  exact min_eq_right (le_max_right t 0)

theorem rate_recovered (S R : ℕ) (hS : 2 ≤ S) (hR : 1 ≤ R) :
    ((S : ℚ) - 1) / (((S : ℚ) - 1) / (R : ℚ)) = (R : ℚ) := by
  have h1 : ((S : ℚ) - 1) ≠ 0 := by
    have : (2 : ℚ) ≤ (S : ℚ) := by exact_mod_cast hS
    linarith
  have h2 : ((R : ℚ)) ≠ 0 := by
    have : (1 : ℚ) ≤ (R : ℚ) := by exact_mod_cast hR
    linarith
  field_simp

theorem interpolation_keys_spec (S R : ℕ) (t : ℚ) (hS : 1 ≤ S) (hR : 1 ≤ R) :
    calculate_interpolation_keys S (((S : ℚ) - 1) / (R : ℚ)) t =
      ((⌊clamp t 0 (((S : ℚ) - 1) / (R : ℚ)) * (R : ℚ)⌋).toNat,
       min ((⌊clamp t 0 (((S : ℚ) - 1) / (R : ℚ)) * (R : ℚ)⌋).toNat + 1) (S - 1),
       clamp t 0 (((S : ℚ) - 1) / (R : ℚ)) * (R : ℚ)
         - (((⌊clamp t 0 (((S : ℚ) - 1) / (R : ℚ)) * (R : ℚ)⌋).toNat : ℕ) : ℚ)) := by
  rcases eq_or_lt_of_le hS with h1 | h2
  · have hs : S = 1 := h1.symm
    subst hs
    have hd : ((1 : ℕ) : ℚ) - 1 = 0 := by norm_num
    simp only [calculate_interpolation_keys, hd, zero_div, clamp_zero_zero]
    norm_num
  · have hS2 : 2 ≤ S := h2
    have hdne : (((S : ℚ) - 1) / (R : ℚ)) ≠ 0 := by
      have h1 : (0 : ℚ) < (S : ℚ) - 1 := by
        have : (2 : ℚ) ≤ (S : ℚ) := by exact_mod_cast hS2
        linarith
      have h2' : (0 : ℚ) < (R : ℚ) := by
        have : (1 : ℚ) ≤ (R : ℚ) := by exact_mod_cast hR
        linarith
      positivity
    simp only [calculate_interpolation_keys, hdne, if_false, rate_recovered S R hS2 hR]

theorem interpolation_keys_past_end (S R : ℕ) (t : ℚ) (hS : 1 ≤ S) (hR : 1 ≤ R)
    (h : ((S : ℚ) - 1) / (R : ℚ) < t) :
    calculate_interpolation_keys S (((S : ℚ) - 1) / (R : ℚ)) t = (S - 1, S - 1, 0) := by
  rw [interpolation_keys_spec S R t hS hR]
  rcases eq_or_lt_of_le hS with h1 | h2
  · have hs : S = 1 := h1.symm
    subst hs
    norm_num [clamp_zero_zero]
  · have hS2 : 2 ≤ S := h2
    have hpos : (0 : ℚ) < (S : ℚ) - 1 := by
      have : (2 : ℚ) ≤ (S : ℚ) := by exact_mod_cast hS2
      linarith
    have hRpos : (0 : ℚ) < (R : ℚ) := by
      have : (1 : ℚ) ≤ (R : ℚ) := by exact_mod_cast hR
      linarith
    have hdpos : (0 : ℚ) < ((S : ℚ) - 1) / (R : ℚ) := by positivity
    have hclamp : clamp t 0 (((S : ℚ) - 1) / (R : ℚ)) = ((S : ℚ) - 1) / (R : ℚ) := by
      unfold clamp
      rw [max_eq_left (le_of_lt (lt_trans hdpos h)), min_eq_right (le_of_lt h)]
    have hpos_eq : clamp t 0 (((S : ℚ) - 1) / (R : ℚ)) * (R : ℚ) = ((S : ℚ) - 1) := by
      rw [hclamp]
      field_simp
    have hcast : ((S : ℚ) - 1) = (((S - 1 : ℕ) : ℤ) : ℚ) := by
      push_cast [Nat.cast_sub hS]
      ring
    have hfloor : (⌊clamp t 0 (((S : ℚ) - 1) / (R : ℚ)) * (R : ℚ)⌋).toNat = S - 1 := by
      rw [hpos_eq, hcast, Int.floor_intCast, Int.toNat_natCast]
    rw [hfloor, hpos_eq]
    simp only [Prod.mk.injEq, true_and, and_true, eq_self_iff_true]
    refine ⟨?_, ?_⟩
    · simp [Nat.min_eq_right (Nat.le_succ (S - 1))]
    · rw [hcast]
      push_cast
      ring

/-- C8: for every initialized rotation or translation track with at least one
sample and a positive sample rate, `sample_track(t)` derives the duration as
`(num_samples - 1) / sample_rate`, clamps `t` to `[0, duration]` and returns
the linear interpolation of the two samples at the surrounding frames
(`frame0 = floor(t·rate)`, `frame1 = min(frame0+1, num_samples-1)`); in
particular, for any `t` greater than the duration it returns the value at the
last sample without error. -/
theorem sample_track_clamps_and_interpolates
    (rt : AnimationRotationTrack) (tt : AnimationTranslationTrack) (t : ℚ)
    (hrS : 1 ≤ rt.num_samples) (hrR : 1 ≤ rt.sample_rate)
    (htS : 1 ≤ tt.num_samples) (htR : 1 ≤ tt.sample_rate) :
    rt.sample_track t = claimed_rotation_sample rt t
    ∧ tt.sample_track t = claimed_translation_sample tt t
    ∧ (((rt.num_samples : ℚ) - 1) / (rt.sample_rate : ℚ) < t →
        rt.sample_track t = rt.get_sample (rt.num_samples - 1))
    ∧ (((tt.num_samples : ℚ) - 1) / (tt.sample_rate : ℚ) < t →
        tt.sample_track t = tt.get_sample (tt.num_samples - 1)) := by
  refine ⟨?_, ?_, ?_, ?_⟩
  · unfold AnimationRotationTrack.sample_track claimed_rotation_sample
    simp only [interpolation_keys_spec rt.num_samples rt.sample_rate t hrS hrR]
  · unfold AnimationTranslationTrack.sample_track claimed_translation_sample
    simp only [interpolation_keys_spec tt.num_samples tt.sample_rate t htS htR]
  · intro h
    unfold AnimationRotationTrack.sample_track
    simp only [interpolation_keys_past_end rt.num_samples rt.sample_rate t hrS hrR h]
    exact quat_lerp_zero _ _
  · intro h
    unfold AnimationTranslationTrack.sample_track
    simp only [interpolation_keys_past_end tt.num_samples tt.sample_rate t htS htR h]
    exact vector_lerp_zero _ _

/-- Witness for C8 at a concrete one-sample track pair and `t = 1`, which is
past the duration `0`. -/
theorem sample_track_clamps_and_interpolates_witness :
    (1 ≤ (1 : ℕ)) ∧
      ((AnimationRotationTrack.mk 1 1 [⟨0, 0, 0, 1⟩]).sample_track 1 =
          claimed_rotation_sample (AnimationRotationTrack.mk 1 1 [⟨0, 0, 0, 1⟩]) 1
        ∧ (AnimationTranslationTrack.mk 1 1 [⟨0, 0, 0⟩]).sample_track 1 =
          claimed_translation_sample (AnimationTranslationTrack.mk 1 1 [⟨0, 0, 0⟩]) 1
        ∧ ((((1 : ℕ) : ℚ) - 1) / ((1 : ℕ) : ℚ) < 1 →
            (AnimationRotationTrack.mk 1 1 [⟨0, 0, 0, 1⟩]).sample_track 1 =
              (AnimationRotationTrack.mk 1 1 [⟨0, 0, 0, 1⟩]).get_sample (1 - 1))
        ∧ ((((1 : ℕ) : ℚ) - 1) / ((1 : ℕ) : ℚ) < 1 →
            (AnimationTranslationTrack.mk 1 1 [⟨0, 0, 0⟩]).sample_track 1 =
              (AnimationTranslationTrack.mk 1 1 [⟨0, 0, 0⟩]).get_sample (1 - 1))) :=
  ⟨by decide,
   sample_track_clamps_and_interpolates
     (AnimationRotationTrack.mk 1 1 [⟨0, 0, 0, 1⟩])
     (AnimationTranslationTrack.mk 1 1 [⟨0, 0, 0⟩]) 1
     (by decide) (by decide) (by decide) (by decide)⟩

/-! ### Theorems for the encoder claims C1, C6, C7, C4, C5, C3 -/

/-- C1: whenever the chosen translation format is not `Vector3_96` and the
range-reduction flags do not include both `PerClip` and `Translations`,
`compress_clip` fails: it returns no artifact and its event trace is empty —
no stage runs and no buffer is allocated. -/
theorem compress_clip_requires_translation_range_reduction
    (clip : AnimationClip) (skeleton : RigidSkeleton) (settings : CompressionSettings)
    (hfmt : settings.translation_format ≠ VectorFormat8.Vector3_96)
    (hflags : are_enum_flags_set settings.range_reduction
      (RangeReductionFlags8.PerClip.orFlags RangeReductionFlags8.Translations) = false) :
    compress_clip clip skeleton settings = (none, []) := by
  unfold compress_clip
  split_ifs with h1 h2 h3
  · rfl
  · rfl
  · rfl
  · exact absurd ⟨hfmt, hflags⟩ h3

/-- Witness for C1: `Vector3_48` translations with no range reduction. -/
theorem compress_clip_requires_translation_range_reduction_witness :
    ((CompressionSettings.mk RotationFormat8.Quat_128 VectorFormat8.Vector3_48
        RangeReductionFlags8.NoFlags).translation_format ≠ VectorFormat8.Vector3_96
      ∧ are_enum_flags_set
          (CompressionSettings.mk RotationFormat8.Quat_128 VectorFormat8.Vector3_48
            RangeReductionFlags8.NoFlags).range_reduction
          (RangeReductionFlags8.PerClip.orFlags RangeReductionFlags8.Translations) = false)
    ∧ compress_clip (AnimationClip.mk 2 30 [ClipBone.mk [] []]) (RigidSkeleton.mk [0])
        (CompressionSettings.mk RotationFormat8.Quat_128 VectorFormat8.Vector3_48
          RangeReductionFlags8.NoFlags) = (none, []) :=
  ⟨⟨by decide, by decide⟩,
   compress_clip_requires_translation_range_reduction
     (AnimationClip.mk 2 30 [ClipBone.mk [] []]) (RigidSkeleton.mk [0])
     (CompressionSettings.mk RotationFormat8.Quat_128 VectorFormat8.Vector3_48
       RangeReductionFlags8.NoFlags)
     (by decide) (by decide)⟩

/-- C6: for a clip with zero bones or zero samples, `compress_clip` fails
immediately: no artifact, an empty event trace — nothing allocated and no
compression stage run. -/
theorem compress_clip_rejects_empty_clip
    (clip : AnimationClip) (skeleton : RigidSkeleton) (settings : CompressionSettings)
    (h : clip.get_num_bones = 0 ∨ clip.get_num_samples = 0) :
    compress_clip clip skeleton settings = (none, []) := by
  unfold compress_clip
  rcases h with h | h
  · simp [h]
  · simp [h]

/-- Witness for C6: a clip with no bones. -/
theorem compress_clip_rejects_empty_clip_witness :
    ((AnimationClip.mk 0 30 []).get_num_bones = 0 ∨
      (AnimationClip.mk 0 30 []).get_num_samples = 0)
    ∧ compress_clip (AnimationClip.mk 0 30 []) (RigidSkeleton.mk [])
        (CompressionSettings.mk RotationFormat8.Quat_128 VectorFormat8.Vector3_96
          RangeReductionFlags8.NoFlags) = (none, []) :=
  ⟨by decide,
   compress_clip_rejects_empty_clip (AnimationClip.mk 0 30 []) (RigidSkeleton.mk [])
     (CompressionSettings.mk RotationFormat8.Quat_128 VectorFormat8.Vector3_96
       RangeReductionFlags8.NoFlags)
     (by decide)⟩

/-- C7: a compress call that passes the preconditions runs its stages in
the strict source order — clip-to-stream conversion, rotation conversion,
constant compaction with the literal tolerance `0.00001`, then (only when
the `PerClip` flag is set) rotation and translation normalization, then
rotation and translation quantization.  Each stage consumes the previous
stage's full output by construction: the artifact quantities are computed
from `final_bone_streams`, the nested composition of exactly these stages. -/
theorem compress_clip_stage_order
    (clip : AnimationClip) (skeleton : RigidSkeleton) (settings : CompressionSettings)
    (hb : clip.get_num_bones ≠ 0) (hs : clip.get_num_samples ≠ 0)
    (hok : ¬(settings.translation_format ≠ VectorFormat8.Vector3_96
      ∧ are_enum_flags_set settings.range_reduction
          (RangeReductionFlags8.PerClip.orFlags RangeReductionFlags8.Translations) = false)) :
    stage_trace (compress_clip clip skeleton settings).2 =
      [PipelineStage.convertClipToStreams, PipelineStage.convertRotationStreams,
       PipelineStage.compactConstantStreams (1 / 100000)]
      ++ (if is_enum_flag_set settings.range_reduction RangeReductionFlags8.PerClip then
          [PipelineStage.normalizeRotationStreams, PipelineStage.normalizeTranslationStreams]
        else [])
      ++ [PipelineStage.quantizeRotationStreams, PipelineStage.quantizeTranslationStreams] := by
  unfold compress_clip
  rw [if_neg hb, if_neg hs, if_neg hok]
  cases hp : is_enum_flag_set settings.range_reduction RangeReductionFlags8.PerClip <;>
    simp [stage_trace, compress_events, hp]

/-- Witness for C7 with the `PerClip|Rotations|Translations` flags set. -/
theorem compress_clip_stage_order_witness :
    ((AnimationClip.mk 1 30 [ClipBone.mk [⟨0, 0, 0, 1⟩] [⟨0, 0, 0⟩]]).get_num_bones ≠ 0
      ∧ (AnimationClip.mk 1 30 [ClipBone.mk [⟨0, 0, 0, 1⟩] [⟨0, 0, 0⟩]]).get_num_samples ≠ 0)
    ∧ stage_trace
        (compress_clip (AnimationClip.mk 1 30 [ClipBone.mk [⟨0, 0, 0, 1⟩] [⟨0, 0, 0⟩]])
          (RigidSkeleton.mk [0])
          (CompressionSettings.mk RotationFormat8.Quat_128 VectorFormat8.Vector3_96
            (RangeReductionFlags8.mk true true true))).2 =
      [PipelineStage.convertClipToStreams, PipelineStage.convertRotationStreams,
       PipelineStage.compactConstantStreams (1 / 100000)]
      ++ (if is_enum_flag_set (RangeReductionFlags8.mk true true true)
            RangeReductionFlags8.PerClip then
          [PipelineStage.normalizeRotationStreams, PipelineStage.normalizeTranslationStreams]
        else [])
      ++ [PipelineStage.quantizeRotationStreams, PipelineStage.quantizeTranslationStreams] :=
  ⟨⟨by decide, by decide⟩,
   compress_clip_stage_order (AnimationClip.mk 1 30 [ClipBone.mk [⟨0, 0, 0, 1⟩] [⟨0, 0, 0⟩]])
     (RigidSkeleton.mk [0])
     (CompressionSettings.mk RotationFormat8.Quat_128 VectorFormat8.Vector3_96
       (RangeReductionFlags8.mk true true true))
     (by decide) (by decide) (by decide)⟩

/-- C4: a successful compress call allocates, with 16-byte alignment, a
buffer of exactly preamble + header + two bitsets of `bitset_size` 32-bit
words + constant data, aligned to 4, + range data, aligned to 4, + per-frame
animated data × number of samples. -/
theorem compress_clip_buffer_size_formula
    (clip : AnimationClip) (skeleton : RigidSkeleton) (settings : CompressionSettings)
    (hb : clip.get_num_bones ≠ 0) (hs : clip.get_num_samples ≠ 0)
    (hok : ¬(settings.translation_format ≠ VectorFormat8.Vector3_96
      ∧ are_enum_flags_set settings.range_reduction
          (RangeReductionFlags8.PerClip.orFlags RangeReductionFlags8.Translations) = false)) :
    ∃ a, (compress_clip clip skeleton settings).1 = some a
      ∧ a.buffer_size = claimed_buffer_size clip settings
      ∧ a.buffer_alignment = 16
      ∧ CompressEvent.alloc a.buffer_size 16 ∈ (compress_clip clip skeleton settings).2 := by
  unfold compress_clip
  rw [if_neg hb, if_neg hs, if_neg hok]
  refine ⟨_, rfl, ?_, rfl, ?_⟩
  · show compressed_buffer_size clip settings = claimed_buffer_size clip settings
    have hbits : sizeof_CompressedClip + sizeof_FullPrecisionHeader
        + 4 * compressed_bitset_size clip + 4 * compressed_bitset_size clip
        + compressed_constant_data_size clip settings
        = sizeof_CompressedClip + sizeof_FullPrecisionHeader
          + 2 * (4 * compressed_bitset_size clip)
          + compressed_constant_data_size clip settings := by
      ring
    unfold compressed_buffer_size claimed_buffer_size compressed_animated_data_size
    rw [hbits]
  · show CompressEvent.alloc (compressed_buffer_size clip settings) 16 ∈
      compress_events clip settings
    unfold compress_events
    simp

/-- Witness for C4 at a one-bone, one-sample clip. -/
theorem compress_clip_buffer_size_formula_witness :
    ((AnimationClip.mk 1 30 [ClipBone.mk [⟨0, 0, 0, 1⟩] [⟨0, 0, 0⟩]]).get_num_bones ≠ 0)
    ∧ ∃ a,
        (compress_clip (AnimationClip.mk 1 30 [ClipBone.mk [⟨0, 0, 0, 1⟩] [⟨0, 0, 0⟩]])
          (RigidSkeleton.mk [0])
          (CompressionSettings.mk RotationFormat8.Quat_128 VectorFormat8.Vector3_96
            RangeReductionFlags8.NoFlags)).1 = some a
        ∧ a.buffer_size =
            claimed_buffer_size (AnimationClip.mk 1 30 [ClipBone.mk [⟨0, 0, 0, 1⟩] [⟨0, 0, 0⟩]])
              (CompressionSettings.mk RotationFormat8.Quat_128 VectorFormat8.Vector3_96
                RangeReductionFlags8.NoFlags)
        ∧ a.buffer_alignment = 16
        ∧ CompressEvent.alloc a.buffer_size 16 ∈
            (compress_clip (AnimationClip.mk 1 30 [ClipBone.mk [⟨0, 0, 0, 1⟩] [⟨0, 0, 0⟩]])
              (RigidSkeleton.mk [0])
              (CompressionSettings.mk RotationFormat8.Quat_128 VectorFormat8.Vector3_96
                RangeReductionFlags8.NoFlags)).2 :=
  ⟨by decide,
   compress_clip_buffer_size_formula
     (AnimationClip.mk 1 30 [ClipBone.mk [⟨0, 0, 0, 1⟩] [⟨0, 0, 0⟩]])
     (RigidSkeleton.mk [0])
     (CompressionSettings.mk RotationFormat8.Quat_128 VectorFormat8.Vector3_96
       RangeReductionFlags8.NoFlags)
     (by decide) (by decide) (by decide)⟩

theorem sum_constant_bytes (format : RotationFormat8) (l : List BoneStreams) :
    (l.map (constant_bytes_of_bone format)).sum =
      get_packed_rotation_size format * l.countP bone_has_constant_rotation
        + get_packed_vector_size VectorFormat8.Vector3_96
          * l.countP bone_has_constant_translation := by
  induction l with
  | nil => simp
  | cons b tl ih =>
    simp only [List.map_cons, List.sum_cons, List.countP_cons, ih, constant_bytes_of_bone]
    cases hb1 : bone_has_constant_rotation b <;>
      cases hb2 : bone_has_constant_translation b <;>
      simp [hb1, hb2] <;> ring

theorem sum_animated_bytes (rf : RotationFormat8) (tf : VectorFormat8) (S : ℕ)
    (l : List BoneStreams) :
    (l.map (animated_bytes_of_bone rf tf S)).sum =
      (get_packed_rotation_size rf * l.countP bone_has_animated_rotation
        + get_packed_vector_size tf * l.countP bone_has_animated_translation) * S := by
  induction l with
  | nil => simp
  | cons b tl ih =>
    simp only [List.map_cons, List.sum_cons, List.countP_cons, ih, animated_bytes_of_bone]
    cases hb1 : bone_has_animated_rotation b <;>
      cases hb2 : bone_has_animated_translation b <;>
      simp [hb1, hb2] <;> ring

/-- C5: in a successful compress, the constant region holds exactly one
sample per constant rotation track at the chosen rotation width and one
sample per constant translation track at full `Vector3_96` width (regardless
of the chosen translation format), the animated region holds `num_samples`
samples per animated track at the chosen widths, and default tracks
contribute no bytes to either region (they are neither constant- nor
animated-counted). -/
theorem compress_clip_per_track_contributions
    (clip : AnimationClip) (skeleton : RigidSkeleton) (settings : CompressionSettings)
    (hb : clip.get_num_bones ≠ 0) (hs : clip.get_num_samples ≠ 0)
    (hok : ¬(settings.translation_format ≠ VectorFormat8.Vector3_96
      ∧ are_enum_flags_set settings.range_reduction
          (RangeReductionFlags8.PerClip.orFlags RangeReductionFlags8.Translations) = false)) :
    ∃ a, (compress_clip clip skeleton settings).1 = some a
      ∧ a.constant_data_size =
          ((final_bone_streams clip settings).map
            (constant_bytes_of_bone settings.rotation_format)).sum
      ∧ a.animated_data_size =
          ((final_bone_streams clip settings).map
            (animated_bytes_of_bone settings.rotation_format settings.translation_format
              clip.get_num_samples)).sum
      ∧ ∀ b ∈ final_bone_streams clip settings,
          (b.is_rotation_default = true →
            bone_has_constant_rotation b = false ∧ bone_has_animated_rotation b = false)
          ∧ (b.is_translation_default = true →
            bone_has_constant_translation b = false ∧ bone_has_animated_translation b = false) := by
  unfold compress_clip
  rw [if_neg hb, if_neg hs, if_neg hok]
  refine ⟨_, rfl, ?_, ?_, ?_⟩
  · show compressed_constant_data_size clip settings = _
    rw [sum_constant_bytes]
    rfl
  · show compressed_animated_data_size clip settings = _
    rw [sum_animated_bytes]
    rfl
  · intro b _
    constructor
    · intro hd
      constructor
      · simp [bone_has_constant_rotation, hd]
      · simp [bone_has_animated_rotation, hd]
    · intro hd
      constructor
      · simp [bone_has_constant_translation, hd]
      · simp [bone_has_animated_translation, hd]

/-- Witness for C5 at a one-bone clip with a constant non-identity pose. -/
theorem compress_clip_per_track_contributions_witness :
    ((AnimationClip.mk 2 30
        [ClipBone.mk [⟨1, 0, 0, 0⟩, ⟨1, 0, 0, 0⟩] [⟨1, 2, 3⟩, ⟨1, 2, 3⟩]]).get_num_bones ≠ 0)
    ∧ ∃ a,
        (compress_clip
          (AnimationClip.mk 2 30
            [ClipBone.mk [⟨1, 0, 0, 0⟩, ⟨1, 0, 0, 0⟩] [⟨1, 2, 3⟩, ⟨1, 2, 3⟩]])
          (RigidSkeleton.mk [0])
          (CompressionSettings.mk RotationFormat8.Quat_128 VectorFormat8.Vector3_96
            RangeReductionFlags8.NoFlags)).1 = some a
        ∧ a.constant_data_size =
            ((final_bone_streams
              (AnimationClip.mk 2 30
                [ClipBone.mk [⟨1, 0, 0, 0⟩, ⟨1, 0, 0, 0⟩] [⟨1, 2, 3⟩, ⟨1, 2, 3⟩]])
              (CompressionSettings.mk RotationFormat8.Quat_128 VectorFormat8.Vector3_96
                RangeReductionFlags8.NoFlags)).map
              (constant_bytes_of_bone RotationFormat8.Quat_128)).sum
        ∧ a.animated_data_size =
            ((final_bone_streams
              (AnimationClip.mk 2 30
                [ClipBone.mk [⟨1, 0, 0, 0⟩, ⟨1, 0, 0, 0⟩] [⟨1, 2, 3⟩, ⟨1, 2, 3⟩]])
              (CompressionSettings.mk RotationFormat8.Quat_128 VectorFormat8.Vector3_96
                RangeReductionFlags8.NoFlags)).map
              (animated_bytes_of_bone RotationFormat8.Quat_128 VectorFormat8.Vector3_96
                (AnimationClip.mk 2 30
                  [ClipBone.mk [⟨1, 0, 0, 0⟩, ⟨1, 0, 0, 0⟩] [⟨1, 2, 3⟩, ⟨1, 2, 3⟩]]).get_num_samples)).sum
        ∧ ∀ b ∈ final_bone_streams
            (AnimationClip.mk 2 30
              [ClipBone.mk [⟨1, 0, 0, 0⟩, ⟨1, 0, 0, 0⟩] [⟨1, 2, 3⟩, ⟨1, 2, 3⟩]])
            (CompressionSettings.mk RotationFormat8.Quat_128 VectorFormat8.Vector3_96
              RangeReductionFlags8.NoFlags),
            (b.is_rotation_default = true →
              bone_has_constant_rotation b = false ∧ bone_has_animated_rotation b = false)
            ∧ (b.is_translation_default = true →
              bone_has_constant_translation b = false ∧ bone_has_animated_translation b = false) :=
  ⟨by decide,
   compress_clip_per_track_contributions
     (AnimationClip.mk 2 30
       [ClipBone.mk [⟨1, 0, 0, 0⟩, ⟨1, 0, 0, 0⟩] [⟨1, 2, 3⟩, ⟨1, 2, 3⟩]])
     (RigidSkeleton.mk [0])
     (CompressionSettings.mk RotationFormat8.Quat_128 VectorFormat8.Vector3_96
       RangeReductionFlags8.NoFlags)
     (by decide) (by decide) (by decide)⟩

unseal Rat.sub Rat.add Rat.mul Rat.inv Rat.ofScientific in
/-- C3 counterexample: with settings `(Quat_128, Vector3_96, PerClip)` — the
`PerClip` flag set but neither kind flag — on a trivial one-bone clip, the
range region is empty (`clip_range_data_size = 0`) yet its header offset is
the valid byte offset 48, not the all-ones sentinel.  This falsifies the
claim's clause that "any region that is empty has its offset set to the
all-ones sentinel": the encoder keys the range-region sentinel on the
`PerClip` flag (encoder.h lines 177-180), not on emptiness. -/
theorem compress_clip_empty_range_region_keeps_valid_offset :
    ((compress_clip (AnimationClip.mk 1 30 [ClipBone.mk [⟨0, 0, 0, 1⟩] [⟨0, 0, 0⟩]])
        (RigidSkeleton.mk [0])
        (CompressionSettings.mk RotationFormat8.Quat_128 VectorFormat8.Vector3_96
          (RangeReductionFlags8.mk true false false))).1.map
      fun a => (a.clip_range_data_size, a.header.clip_range_data_offset)) = some (0, 48)
    ∧ (48 : ℕ) ≠ InvalidPtrOffset32 := by
  constructor
  · decide
  · decide

/-- C3 (amended): in every successful compress, the default bitset starts
right after the header, the constant bitset follows it contiguously, the
constant data follows the two bitsets, the range data starts at the end of
the constant data aligned up to 4, and the animated data starts at the end
of the range data aligned up to 4; the constant and animated regions get the
all-ones sentinel exactly when they are empty, while the range region gets
the sentinel exactly when the `PerClip` flag is absent — an empty range
region keeps its valid offset when `PerClip` is set. -/
theorem compress_clip_header_offsets
    (clip : AnimationClip) (skeleton : RigidSkeleton) (settings : CompressionSettings)
    (hb : clip.get_num_bones ≠ 0) (hs : clip.get_num_samples ≠ 0)
    (hok : ¬(settings.translation_format ≠ VectorFormat8.Vector3_96
      ∧ are_enum_flags_set settings.range_reduction
          (RangeReductionFlags8.PerClip.orFlags RangeReductionFlags8.Translations) = false)) :
    ∃ a, (compress_clip clip skeleton settings).1 = some a
      ∧ a.header.default_tracks_bitset_offset = sizeof_FullPrecisionHeader
      ∧ a.header.constant_tracks_bitset_offset =
          sizeof_FullPrecisionHeader + 4 * a.bitset_size
      ∧ a.header.constant_track_data_offset =
          (if 0 < a.constant_data_size then
            sizeof_FullPrecisionHeader + 4 * a.bitset_size + 4 * a.bitset_size
          else InvalidPtrOffset32)
      ∧ a.header.clip_range_data_offset =
          (if is_enum_flag_set settings.range_reduction RangeReductionFlags8.PerClip then
            align_to
              (sizeof_FullPrecisionHeader + 4 * a.bitset_size + 4 * a.bitset_size
                + a.constant_data_size) 4
          else InvalidPtrOffset32)
      ∧ a.header.track_data_offset =
          (if 0 < a.animated_data_size then
            align_to
              (align_to
                (sizeof_FullPrecisionHeader + 4 * a.bitset_size + 4 * a.bitset_size
                  + a.constant_data_size) 4
              + a.clip_range_data_size) 4
          else InvalidPtrOffset32) := by
  unfold compress_clip
  rw [if_neg hb, if_neg hs, if_neg hok]
  exact ⟨_, rfl, rfl, rfl, rfl, rfl, rfl⟩

/-- Witness for the amended C3 on a two-bone clip with range reduction. -/
theorem compress_clip_header_offsets_witness :
    ((AnimationClip.mk 2 30
        [ClipBone.mk [⟨0, 0, 0, 1⟩, ⟨1, 0, 0, 0⟩] [⟨0, 0, 0⟩, ⟨4, 5, 6⟩]]).get_num_bones ≠ 0)
    ∧ ∃ a,
        (compress_clip
          (AnimationClip.mk 2 30
            [ClipBone.mk [⟨0, 0, 0, 1⟩, ⟨1, 0, 0, 0⟩] [⟨0, 0, 0⟩, ⟨4, 5, 6⟩]])
          (RigidSkeleton.mk [0])
          (CompressionSettings.mk RotationFormat8.Quat_128 VectorFormat8.Vector3_48
            (RangeReductionFlags8.mk true true true))).1 = some a
        ∧ a.header.default_tracks_bitset_offset = sizeof_FullPrecisionHeader
        ∧ a.header.constant_tracks_bitset_offset =
            sizeof_FullPrecisionHeader + 4 * a.bitset_size
        ∧ a.header.constant_track_data_offset =
            (if 0 < a.constant_data_size then
              sizeof_FullPrecisionHeader + 4 * a.bitset_size + 4 * a.bitset_size
            else InvalidPtrOffset32)
        ∧ a.header.clip_range_data_offset =
            (if is_enum_flag_set (RangeReductionFlags8.mk true true true)
                RangeReductionFlags8.PerClip then
              align_to
                (sizeof_FullPrecisionHeader + 4 * a.bitset_size + 4 * a.bitset_size
                  + a.constant_data_size) 4
            else InvalidPtrOffset32)
        ∧ a.header.track_data_offset =
            (if 0 < a.animated_data_size then
              align_to
                (align_to
                  (sizeof_FullPrecisionHeader + 4 * a.bitset_size + 4 * a.bitset_size
                    + a.constant_data_size) 4
                + a.clip_range_data_size) 4
            else InvalidPtrOffset32) :=
  ⟨by decide,
   compress_clip_header_offsets
     (AnimationClip.mk 2 30
       [ClipBone.mk [⟨0, 0, 0, 1⟩, ⟨1, 0, 0, 0⟩] [⟨0, 0, 0⟩, ⟨4, 5, 6⟩]])
     (RigidSkeleton.mk [0])
     (CompressionSettings.mk RotationFormat8.Quat_128 VectorFormat8.Vector3_48
       (RangeReductionFlags8.mk true true true))
     (by decide) (by decide) (by decide)⟩

/-! ### Theorem for claim C9 -/

/-- C9: for every blob with matching track-list lengths, every in-range bone
index and every sample time, `decompress_bone` yields exactly the bone-b
component of the pose produced by `decompress_pose`, for any shared
renormalization function. -/
theorem decompress_bone_matches_pose
    (qnorm : Quat4 → Quat4) (blob : CompressedBlob) (t : ℚ) (b : ℕ)
    (hb : b < blob.rotation_tracks.length)
    (hlen : blob.translation_tracks.length = blob.rotation_tracks.length) :
    (decompress_pose qnorm blob t).getD b (⟨0, 0, 0, 1⟩, ⟨0, 0, 0⟩) =
      decompress_bone qnorm blob t b := by
  have hb2 : b < blob.translation_tracks.length := by
    rw [hlen]
    exact hb
  have hzip : b < (decompress_pose qnorm blob t).length := by
    unfold decompress_pose
    rw [List.length_zipWith]
    omega
  rw [List.getD_eq_getElem _ _ hzip]
  unfold decompress_pose decompress_bone
  rw [List.getElem_zipWith]
  rw [List.getD_eq_getElem _ _ hb, List.getD_eq_getElem _ _ hb2]

/-- Witness for C9 at a two-track blob, bone 0, `t = 0`. -/
theorem decompress_bone_matches_pose_witness :
    (0 < (CompressedBlob.mk 2 30
        [DecodedRotationTrack.mk TrackMode.animated ⟨0, 0, 0, 1⟩
          [⟨0, 0, 0, 1⟩, ⟨1, 0, 0, 0⟩]]
        [DecodedTranslationTrack.mk TrackMode.constant ⟨1, 2, 3⟩ []]).rotation_tracks.length)
    ∧ (decompress_pose (fun q => q)
        (CompressedBlob.mk 2 30
          [DecodedRotationTrack.mk TrackMode.animated ⟨0, 0, 0, 1⟩
            [⟨0, 0, 0, 1⟩, ⟨1, 0, 0, 0⟩]]
          [DecodedTranslationTrack.mk TrackMode.constant ⟨1, 2, 3⟩ []]) 0).getD 0
        (⟨0, 0, 0, 1⟩, ⟨0, 0, 0⟩) =
      decompress_bone (fun q => q)
        (CompressedBlob.mk 2 30
          [DecodedRotationTrack.mk TrackMode.animated ⟨0, 0, 0, 1⟩
            [⟨0, 0, 0, 1⟩, ⟨1, 0, 0, 0⟩]]
          [DecodedTranslationTrack.mk TrackMode.constant ⟨1, 2, 3⟩ []]) 0 0 :=
  ⟨by decide,
   decompress_bone_matches_pose (fun q => q)
     (CompressedBlob.mk 2 30
       [DecodedRotationTrack.mk TrackMode.animated ⟨0, 0, 0, 1⟩
         [⟨0, 0, 0, 1⟩, ⟨1, 0, 0, 0⟩]]
       [DecodedTranslationTrack.mk TrackMode.constant ⟨1, 2, 3⟩ []]) 0 0
     (by decide) (by decide)⟩

end acl
